import Mathlib

/-!
Shallow embedding of the ci-autoscaling controller
(src/autoscaling/scale-up-function/func.py and
src/autoscaling/scale-down-function/func.py).

External providers (OCI container-instance client, load-balancer client,
network client) are modelled as an explicit environment record: each
provider call's outcome is a field of the environment, `Except PyErr α`
standing for a Python call that either returns a value or raises an
exception.  Side effects on the providers (create/delete instance,
backend mutations) are tracked in an explicit `Effects` counter so that
"performs zero provider calls" claims are statable.
-/

namespace CIAutoscaling

/-- Lifecycle states of an OCI container instance as used by the code. -/
inductive LifecycleState where
  | CREATING
  | ACTIVE
  | DELETING
  | DELETED
  | FAILED
deriving DecidableEq, Repr

/-- Rendering of a lifecycle state, used in the timeout message of
`wait_for_instance_state` (the Python code interpolates the target-state
string into the exception text). -/
def LifecycleState.str : LifecycleState → String
  | .CREATING => "CREATING"
  | .ACTIVE => "ACTIVE"
  | .DELETING => "DELETING"
  | .DELETED => "DELETED"
  | .FAILED => "FAILED"

/-- A Python exception: either an `oci.exceptions.ServiceError` carrying an
HTTP status, or any other exception.  Both carry the text produced by
`str(e)`. -/
inductive PyErr where
  | serviceError (status : Nat) (msg : String)
  | other (msg : String)
deriving DecidableEq, Repr

/-- The text `str(e)` of an exception, surfaced in error results. -/
def PyErr.toMessage : PyErr → String
  | .serviceError _ m => m
  | .other m => m

/-- Read-only snapshot of a container instance as returned by
`list_container_instances` / `get_container_instance`.  `timeCreated` is
the creation timestamp in seconds (Python compares `datetime` values,
which is an order-isomorphic total order). -/
structure Instance where
  id : String
  displayName : String
  lifecycleState : LifecycleState
  timeCreated : Int
deriving DecidableEq, Repr

instance : Inhabited Instance :=
  ⟨{ id := "", displayName := "", lifecycleState := .ACTIVE, timeCreated := 0 }⟩

/-- Configuration loaded from environment variables by `get_config`.
`namePfx` embeds `display_name_prefix`; the numeric fields come from
Python `int(...)` so they are modelled as `Int`. -/
structure Config where
  namePfx : String
  maxInstances : Int
  minInstances : Int
  cooldownSeconds : Int
  backendSetName : String
  appPort : Int
deriving DecidableEq, Repr

/-- The dict returned by a handler.  Python returns dicts with varying
key sets; keys absent from a given return are `none`. -/
structure ScaleResult where
  status : String
  message : String
  instanceOcid : Option String := none
  instanceName : Option String := none
  privateIp : Option String := none
  totalInstances : Option Int := none
  activeCount : Option Nat := none
  creatingCount : Option Nat := none
  totalCount : Option Nat := none
  currentCount : Option Nat := none
deriving DecidableEq, Repr

/-- Counter of mutating provider calls performed during one invocation. -/
structure Effects where
  createCalls : Nat := 0
  deleteCalls : Nat := 0
  backendCalls : Nat := 0
deriving DecidableEq, Repr

/-- No provider mutation performed. -/
def noEffects : Effects := {}

/-- Python `s.startswith(p)` on the character-sequence model of strings
(structurally recursive, unlike `String.startsWith`, so that concrete
instances evaluate inside the kernel). -/
def pyStartsWith (s p : String) : Bool :=
  p.data.isPrefixOf s.data

/-- Client-side filter by display-name prefix shared by all inventory
readers: `[inst for inst in items if inst.display_name.startswith(prefix)]`. -/
def matchingInstances (pfx : String) (items : List Instance) : List Instance :=
  items.filter (fun inst => pyStartsWith inst.displayName pfx)

/-- One step of Python `max(..., key=...)`: the running best is replaced
only when the candidate's key is strictly greater. -/
def pyMaxStep (best y : Instance) : Instance :=
  if best.timeCreated < y.timeCreated then y else best

/-- Python `max(l, key=lambda x: x.time_created)`: scans left to right and
replaces the current best only on strictly greater key, so the first
maximal element wins; `none` on the empty list (Python would raise). -/
def pyMaxBy : List Instance → Option Instance
  | [] => none
  | x :: xs => some (xs.foldl pyMaxStep x)

namespace ScaleUp

/-- Outcomes of the provider calls the scale-up handler makes, in the
order it makes them.  `pollState` gives the result of the k-th
`get_container_instance` poll inside `wait_for_instance_state`;
`createInstance` covers `create_container_instance` (the provisioning
request plus OCID resolution); `resolveIp` covers
`get_instance_private_ip`. -/
structure UpEnv where
  listActive : Except PyErr (List Instance)
  listCreating : Except PyErr (List Instance)
  listAll : Except PyErr (List Instance)
  now : Int
  createInstance : Except PyErr String
  pollState : Nat → Except PyErr LifecycleState
  resolveIp : Except PyErr String
  lbBackendSets : Except PyErr (List String)
  createBackendSet : Except PyErr Unit
  addBackend : String → Except PyErr Unit

/-- `count_active_instances`: list with `lifecycle_state="ACTIVE"`, filter
by prefix, count; on any exception return 0. -/
def count_active_instances (env : UpEnv) (cfg : Config) : Nat :=
  match env.listActive with
  | Except.ok items => (matchingInstances cfg.namePfx items).length
  | Except.error _ => 0

/-- `count_creating_instances`: list with `lifecycle_state="CREATING"`,
filter by prefix, count; on any exception return 0. -/
def count_creating_instances (env : UpEnv) (cfg : Config) : Nat :=
  match env.listCreating with
  | Except.ok items => (matchingInstances cfg.namePfx items).length
  | Except.error _ => 0

/-- `check_cooldown`: list all instances (any state), filter by prefix;
with no matches the check passes; otherwise scaling is allowed iff at
least `cooldown_seconds` have elapsed since the most recent
`time_created`; on any exception the check passes (fail open). -/
def check_cooldown (env : UpEnv) (cfg : Config) : Bool :=
  match env.listAll with
  | Except.error _ => true
  | Except.ok items =>
    match pyMaxBy (matchingInstances cfg.namePfx items) with
    | none => true
    | some most_recent =>
      if env.now - most_recent.timeCreated < cfg.cooldownSeconds then false
      else true

/-- The polling loop of `wait_for_instance_state`: `n` remaining
iterations, `k` the index of the next poll.  A poll returning the target
state yields `ok true`; any exception from the poll is caught and the
loop continues; exhausting the budget raises the timeout exception. -/
def waitIters (poll : Nat → Except PyErr LifecycleState)
    (target : LifecycleState) : Nat → Nat → Except PyErr Bool
  | 0, _ =>
    Except.error (PyErr.other
      ("Timeout waiting for instance to reach " ++ target.str ++ " state"))
  | Nat.succ n, k =>
    match poll k with
    | Except.ok st =>
      if st = target then Except.ok true else waitIters poll target n (k + 1)
    | Except.error _ => waitIters poll target n (k + 1)

/-- `wait_for_instance_state`: `while elapsed < max_wait` with
`elapsed += interval` per iteration performs ceil(max_wait/interval)
polls before the timeout exception. -/
def wait_for_instance_state (poll : Nat → Except PyErr LifecycleState)
    (target : LifecycleState) (max_wait interval : Nat) : Except PyErr Bool :=
  waitIters poll target ((max_wait + interval - 1) / interval) 0

/-- `ensure_backend_set_exists`: read the load balancer's backend sets;
if the configured name is present do nothing, otherwise submit
`create_backend_set` (counted as one backend mutation); every exception
is re-raised.  The second component counts backend mutations performed. -/
def ensure_backend_set_exists (env : UpEnv) (cfg : Config) :
    Except PyErr Unit × Nat :=
  match env.lbBackendSets with
  | Except.error e => (Except.error e, 0)
  | Except.ok sets =>
    if sets.contains cfg.backendSetName then (Except.ok (), 0)
    else
      match env.createBackendSet with
      | Except.ok _ => (Except.ok (), 1)
      | Except.error e => (Except.error e, 1)

/-- Body of the scale-up `handler` inside its top-level `try`: the value
is the returned dict or the exception that escapes, paired with the
mutating provider calls performed. -/
def scale_up_inner (env : UpEnv) (cfg : Config) :
    Except PyErr ScaleResult × Effects :=
  if cfg.maxInstances ≤ ((count_active_instances env cfg +
      count_creating_instances env cfg : Nat) : Int) then
    (Except.ok { status := "skipped",
                 message := "Already at maximum instances (" ++
                   toString cfg.maxInstances ++ ")",
                 activeCount := some (count_active_instances env cfg),
                 creatingCount := some (count_creating_instances env cfg),
                 totalCount := some (count_active_instances env cfg +
                   count_creating_instances env cfg) }, noEffects)
  else if 0 < count_creating_instances env cfg then
    (Except.ok { status := "skipped",
                 message := "Scale-up already in progress (" ++
                   toString (count_creating_instances env cfg) ++ " instances being created)",
                 activeCount := some (count_active_instances env cfg),
                 creatingCount := some (count_creating_instances env cfg) }, noEffects)
  else if check_cooldown env cfg = false then
    (Except.ok { status := "skipped",
                 message := "Cooldown period active (2 minutes since last scale operation)",
                 currentCount := some (count_active_instances env cfg) }, noEffects)
  else
    match env.createInstance with
    | Except.error e => (Except.error e, { createCalls := 1 })
    | Except.ok instance_ocid =>
      match wait_for_instance_state env.pollState LifecycleState.ACTIVE 300 5 with
      | Except.error e => (Except.error e, { createCalls := 1 })
      | Except.ok _ =>
        match env.resolveIp with
        | Except.error e => (Except.error e, { createCalls := 1 })
        | Except.ok private_ip =>
          match ensure_backend_set_exists env cfg with
          | (Except.error e, n) =>
            (Except.error e, { createCalls := 1, backendCalls := n })
          | (Except.ok _, n) =>
            match env.addBackend private_ip with
            | Except.error e =>
              (Except.error e, { createCalls := 1, backendCalls := n + 1 })
            | Except.ok _ =>
              (Except.ok { status := "success",
                           message := "Container instance scaled up successfully",
                           instanceOcid := some instance_ocid,
                           privateIp := some private_ip,
                           totalInstances := some
                             ((count_active_instances env cfg : Int) + 1) },
               { createCalls := 1, backendCalls := n + 1 })

/-- The scale-up `handler`: the top-level `except Exception` converts any
escaping exception into a structured error result with the exception
text as `message`. -/
def scale_up_handler (env : UpEnv) (cfg : Config) : ScaleResult × Effects :=
  match scale_up_inner env cfg with
  | (Except.ok r, eff) => (r, eff)
  | (Except.error e, eff) =>
    ({ status := "error", message := e.toMessage }, eff)

end ScaleUp

namespace ScaleDown

/-- Outcomes of the provider calls the scale-down handler makes.
`resolveIp` covers `get_instance_private_ip` (single attempt in this
file); `deleteBackend` is `delete_backend` keyed by the backend name it
is invoked with; `deleteInstance` is `delete_container_instance`'s
provisioning request keyed by instance OCID; `pollDelete` gives the
k-th `get_container_instance` poll of the deletion-confirmation loop. -/
structure DownEnv where
  listActive : Except PyErr (List Instance)
  resolveIp : Except PyErr String
  deleteBackend : String → Except PyErr Unit
  deleteInstance : String → Except PyErr Unit
  pollDelete : Nat → Except PyErr LifecycleState

/-- `list_active_instances`: list with `lifecycle_state="ACTIVE"`, filter
by prefix; on any exception return the empty list. -/
def list_active_instances (env : DownEnv) (cfg : Config) : List Instance :=
  match env.listActive with
  | Except.ok items => matchingInstances cfg.namePfx items
  | Except.error _ => []

/-- Stable insertion into a list sorted by `time_created`: the inserted
element goes before the first strictly later element, after equal ones
already present to its left in the original order. -/
def pyInsert (x : Instance) : List Instance → List Instance
  | [] => [x]
  | y :: ys =>
    if x.timeCreated ≤ y.timeCreated then x :: y :: ys else y :: pyInsert x ys

/-- Python `sorted(instances, key=lambda x: x.time_created)`: a stable
sort by creation time (ties keep the input order). -/
def pySorted : List Instance → List Instance
  | [] => []
  | x :: xs => pyInsert x (pySorted xs)

/-- `select_instance_for_removal`: raise on the empty list, otherwise the
first element of the stable sort by `time_created` (oldest first). -/
def select_instance_for_removal (instances : List Instance) :
    Except PyErr Instance :=
  if instances.isEmpty then
    Except.error (PyErr.other "No instances available for removal")
  else Except.ok ((pySorted instances).headD default)

/-- `remove_backend_from_lb`: submit `delete_backend` for
`private_ip:app_port`; a 404 `ServiceError` is swallowed as success, any
other `ServiceError` is re-raised, a non-ServiceError exception
propagates uncaught.  The second component counts the backend mutation
attempted. -/
def remove_backend_from_lb (env : DownEnv) (cfg : Config)
    (private_ip : String) : Except PyErr Unit × Nat :=
  let backend_name := private_ip ++ ":" ++ toString cfg.appPort
  match env.deleteBackend backend_name with
  | Except.ok _ => (Except.ok (), 1)
  | Except.error (PyErr.serviceError s m) =>
    if s = 404 then (Except.ok (), 1)
    else (Except.error (PyErr.serviceError s m), 1)
  | Except.error (PyErr.other m) => (Except.error (PyErr.other m), 1)

/-- The deletion-confirmation loop of `delete_container_instance`:
`n` remaining iterations, `k` the next poll index.  Observing DELETED or
a 404 `ServiceError` returns; any other `ServiceError` is logged and the
loop continues; a non-ServiceError exception escapes; reaching the
timeout returns normally (deletion may still be in progress). -/
def deleteWaitLoop (poll : Nat → Except PyErr LifecycleState) :
    Nat → Nat → Except PyErr Unit
  | 0, _ => Except.ok ()
  | Nat.succ n, k =>
    match poll k with
    | Except.ok st =>
      if st = LifecycleState.DELETED then Except.ok ()
      else deleteWaitLoop poll n (k + 1)
    | Except.error (PyErr.serviceError s _) =>
      if s = 404 then Except.ok () else deleteWaitLoop poll n (k + 1)
    | Except.error (PyErr.other m) => Except.error (PyErr.other m)

/-- `delete_container_instance`: submit the deletion request; a 404
`ServiceError` from the request means the instance is already deleted
(success); any other `ServiceError` is re-raised; a non-ServiceError
exception propagates.  On an accepted request the DELETED-confirmation
loop runs for at most 12 polls (`max_wait=120`, `interval=10`).  The
second component counts the delete call attempted. -/
def delete_container_instance (env : DownEnv) (instance_ocid : String) :
    Except PyErr Unit × Nat :=
  match env.deleteInstance instance_ocid with
  | Except.ok _ => (deleteWaitLoop env.pollDelete 12 0, 1)
  | Except.error (PyErr.serviceError s m) =>
    if s = 404 then (Except.ok (), 1)
    else (Except.error (PyErr.serviceError s m), 1)
  | Except.error (PyErr.other m) => (Except.error (PyErr.other m), 1)

/-- The inner `try` of the scale-down handler around address resolution
and backend removal: it catches every exception and falls through with
`private_ip = "unknown"`.  Returns the `private_ip` value after the
block and the number of backend mutations attempted. -/
def resolve_and_remove (env : DownEnv) (cfg : Config) : String × Nat :=
  match env.resolveIp with
  | Except.error _ => ("unknown", 0)
  | Except.ok ip =>
    match remove_backend_from_lb env cfg ip with
    | (Except.ok _, n) => (ip, n)
    | (Except.error _, n) => ("unknown", n)

/-- Body of the scale-down `handler` inside its top-level `try`. -/
def scale_down_inner (env : DownEnv) (cfg : Config) :
    Except PyErr ScaleResult × Effects :=
  if ((list_active_instances env cfg).length : Int) ≤ cfg.minInstances then
    (Except.ok { status := "skipped",
                 message := "Already at minimum instances (" ++
                   toString cfg.minInstances ++ ")",
                 currentCount := some (list_active_instances env cfg).length },
     noEffects)
  else
    match select_instance_for_removal (list_active_instances env cfg) with
    | Except.error e => (Except.error e, noEffects)
    | Except.ok instance_to_remove =>
      match delete_container_instance env instance_to_remove.id with
      | (Except.ok _, d) =>
        (Except.ok { status := "success",
                     message := "Container instance scaled down successfully",
                     instanceOcid := some instance_to_remove.id,
                     instanceName := some instance_to_remove.displayName,
                     privateIp := some (resolve_and_remove env cfg).1,
                     totalInstances := some
                       (((list_active_instances env cfg).length : Int) - 1) },
         { deleteCalls := d, backendCalls := (resolve_and_remove env cfg).2 })
      | (Except.error e, d) =>
        (Except.error e,
         { deleteCalls := d, backendCalls := (resolve_and_remove env cfg).2 })

/-- The scale-down `handler`: the top-level `except Exception` converts
any escaping exception into a structured error result with the
exception text as `message`. -/
def scale_down_handler (env : DownEnv) (cfg : Config) : ScaleResult × Effects :=
  match scale_down_inner env cfg with
  | (Except.ok r, eff) => (r, eff)
  | (Except.error e, eff) =>
    ({ status := "error", message := e.toMessage }, eff)

end ScaleDown

/-- Characterization of the stable sort's head: the first element of the
list attaining the minimal `timeCreated` (on a tie the earlier-listed
element wins, mirroring the stability of Python `sorted`). -/
def ScaleDown.firstMin : List Instance → Option Instance
  | [] => none
  | x :: xs =>
    match ScaleDown.firstMin xs with
    | none => some x
    | some y => some (if x.timeCreated ≤ y.timeCreated then x else y)

/-! Concrete fixtures used to instantiate the theorems. -/

/-- A small configuration: prefix "ci", bounds 1..5, cooldown 120 s. -/
def cfgW : Config :=
  { namePfx := "ci", maxInstances := 5, minInstances := 1,
    cooldownSeconds := 120, backendSetName := "bs", appPort := 8080 }

/-- The same configuration with `maxInstances = 0`. -/
def cfgMax0 : Config := { cfgW with maxInstances := 0 }

/-- An ACTIVE instance created at time 100. -/
def inst1 : Instance :=
  { id := "a", displayName := "ci-1", lifecycleState := .ACTIVE, timeCreated := 100 }

/-- An ACTIVE instance created at time 200. -/
def inst2 : Instance :=
  { id := "b", displayName := "ci-2", lifecycleState := .ACTIVE, timeCreated := 200 }

/-- An ACTIVE instance created at time 300. -/
def inst3 : Instance :=
  { id := "c", displayName := "ci-3", lifecycleState := .ACTIVE, timeCreated := 300 }

/-- Tie pair: same creation time as `instTieA` but lexicographically
larger id, listed first by the provider. -/
def instTieZ : Instance :=
  { id := "z", displayName := "ci-z", lifecycleState := .ACTIVE, timeCreated := 100 }

/-- Tie pair: same creation time as `instTieZ`, smaller id, listed second. -/
def instTieA : Instance :=
  { id := "a", displayName := "ci-a", lifecycleState := .ACTIVE, timeCreated := 100 }

/-- An instance still being provisioned. -/
def instCr : Instance :=
  { id := "d", displayName := "ci-4", lifecycleState := .CREATING, timeCreated := 400 }

/-- A scale-up environment where every provider call succeeds and the
fleet is empty. -/
def upEnvW : ScaleUp.UpEnv :=
  { listActive := Except.ok [], listCreating := Except.ok [],
    listAll := Except.ok [], now := 1000,
    createInstance := Except.ok "ocid-new",
    pollState := fun _ => Except.ok LifecycleState.ACTIVE,
    resolveIp := Except.ok "10.0.0.5",
    lbBackendSets := Except.ok ["bs"],
    createBackendSet := Except.ok (),
    addBackend := fun _ => Except.ok () }

/-- A scale-up environment with one CREATING instance in the fleet. -/
def upEnvCr : ScaleUp.UpEnv :=
  { upEnvW with listCreating := Except.ok [instCr],
                listAll := Except.ok [instCr] }

/-- A scale-up environment where the most recent instance was created
50 seconds before `now` (inside the 120 s cooldown). -/
def upEnvCd : ScaleUp.UpEnv :=
  { upEnvW with listActive := Except.ok [inst1],
                listAll := Except.ok [inst1], now := 150 }

/-- A scale-up environment where every inventory read raises. -/
def upEnvErr : ScaleUp.UpEnv :=
  { upEnvW with listActive := Except.error (PyErr.other "read failed"),
                listCreating := Except.error (PyErr.other "read failed"),
                listAll := Except.error (PyErr.other "read failed") }

/-- A scale-down environment with two ACTIVE instances and every
provider call succeeding. -/
def downEnvW : ScaleDown.DownEnv :=
  { listActive := Except.ok [inst1, inst2],
    resolveIp := Except.ok "10.0.0.1",
    deleteBackend := fun _ => Except.ok (),
    deleteInstance := fun _ => Except.ok (),
    pollDelete := fun _ => Except.ok LifecycleState.DELETED }

/-- A scale-down environment with an empty fleet. -/
def downEnvEmpty : ScaleDown.DownEnv :=
  { downEnvW with listActive := Except.ok [] }

/-- A scale-down environment whose inventory read raises. -/
def downEnvErr : ScaleDown.DownEnv :=
  { downEnvW with listActive := Except.error (PyErr.other "read failed") }

/-- A scale-down environment where address resolution raises. -/
def downEnvNoIp : ScaleDown.DownEnv :=
  { downEnvW with resolveIp := Except.error (PyErr.other "Failed to retrieve private IP address") }

/-- A scale-up environment where the provisioning request raises. -/
def upEnvFail : ScaleUp.UpEnv :=
  { upEnvW with createInstance := Except.error (PyErr.other "boom") }

/-- A scale-down environment where the deletion request raises a
non-ServiceError exception. -/
def downEnvFail : ScaleDown.DownEnv :=
  { downEnvW with deleteInstance := fun _ => Except.error (PyErr.other "boom") }

/-- A scale-down environment where both removal operations report 404
not-found. -/
def downEnv404 : ScaleDown.DownEnv :=
  { downEnvW with
    deleteBackend := fun _ => Except.error (PyErr.serviceError 404 "not found"),
    deleteInstance := fun _ => Except.error (PyErr.serviceError 404 "not found") }

/-- A scale-down environment where both removal operations report a 500
server error. -/
def downEnv500 : ScaleDown.DownEnv :=
  { downEnvW with
    deleteBackend := fun _ => Except.error (PyErr.serviceError 500 "server error"),
    deleteInstance := fun _ => Except.error (PyErr.serviceError 500 "server error") }

/-- A poll stream that never leaves CREATING. -/
def pollStuck : Nat → Except PyErr LifecycleState :=
  fun _ => Except.ok LifecycleState.CREATING

/-- A poll stream that reports ACTIVE immediately. -/
def pollReady : Nat → Except PyErr LifecycleState :=
  fun _ => Except.ok LifecycleState.ACTIVE

/-! Helper lemmas about the Python `max` embedding. -/

lemma le_foldl_pyMaxStep (xs : List Instance) (x : Instance) :
    x.timeCreated ≤ (xs.foldl pyMaxStep x).timeCreated := by
  induction xs generalizing x with
  | nil => simp
  | cons y ys ih =>
    simp only [List.foldl_cons]
    refine le_trans ?_ (ih (pyMaxStep x y))
    unfold pyMaxStep
    split <;> omega

lemma mem_le_foldl_pyMaxStep (xs : List Instance) (x : Instance) :
    ∀ i ∈ xs, i.timeCreated ≤ (xs.foldl pyMaxStep x).timeCreated := by
  induction xs generalizing x with
  | nil => simp
  | cons y ys ih =>
    intro i hi
    simp only [List.foldl_cons]
    rcases List.mem_cons.mp hi with rfl | hi
    · refine le_trans ?_ (le_foldl_pyMaxStep ys (pyMaxStep x i))
      unfold pyMaxStep
      split <;> omega
    · exact ih (pyMaxStep x y) i hi

lemma pyMaxBy_le (l : List Instance) (m : Instance) (h : pyMaxBy l = some m) :
    ∀ i ∈ l, i.timeCreated ≤ m.timeCreated := by
  cases l with
  | nil => simp [pyMaxBy] at h
  | cons x xs =>
    simp only [pyMaxBy, Option.some.injEq] at h
    subst h
    intro i hi
    rcases List.mem_cons.mp hi with rfl | hi
    · exact le_foldl_pyMaxStep xs i
    · exact mem_le_foldl_pyMaxStep xs x i hi

/-! Helper lemmas about the stable sort used by victim selection. -/

namespace ScaleDown

lemma pyInsert_head (x : Instance) (s : List Instance) :
    (pyInsert x s).head? = some (match s.head? with
      | none => x
      | some y => if x.timeCreated ≤ y.timeCreated then x else y) := by
  cases s with
  | nil => rfl
  | cons y ys =>
    simp only [pyInsert, List.head?_cons]
    split <;> simp_all

lemma pySorted_head (l : List Instance) :
    (pySorted l).head? = firstMin l := by
  induction l with
  | nil => rfl
  | cons x xs ih =>
    simp only [pySorted, firstMin, pyInsert_head, ih]
    cases hfm : firstMin xs <;> simp [hfm]

lemma firstMin_eq_none (l : List Instance) (h : firstMin l = none) : l = [] := by
  cases l with
  | nil => rfl
  | cons x xs =>
    simp only [firstMin] at h
    cases hfm : firstMin xs <;> simp [hfm] at h

lemma firstMin_mem (l : List Instance) (v : Instance)
    (h : firstMin l = some v) : v ∈ l := by
  induction l generalizing v with
  | nil => simp [firstMin] at h
  | cons x xs ih =>
    simp only [firstMin] at h
    cases hfm : firstMin xs with
    | none =>
      rw [hfm] at h
      simp only [Option.some.injEq] at h
      subst h
      exact List.mem_cons_self x xs
    | some y =>
      rw [hfm] at h
      simp only [Option.some.injEq] at h
      subst h
      split
      · exact List.mem_cons_self x xs
      · exact List.mem_cons_of_mem x (ih y hfm)

lemma firstMin_le (l : List Instance) (v : Instance)
    (h : firstMin l = some v) :
    ∀ i ∈ l, v.timeCreated ≤ i.timeCreated := by
  induction l generalizing v with
  | nil => simp [firstMin] at h
  | cons x xs ih =>
    intro i hi
    simp only [firstMin] at h
    cases hfm : firstMin xs with
    | none =>
      rw [hfm] at h
      simp only [Option.some.injEq] at h
      subst h
      have hnil := firstMin_eq_none xs hfm
      subst hnil
      rcases List.mem_cons.mp hi with rfl | hi2
      · exact le_refl _
      · exact absurd hi2 (List.not_mem_nil i)
    | some y =>
      rw [hfm] at h
      simp only [Option.some.injEq] at h
      subst h
      have hyle := ih y hfm
      rcases List.mem_cons.mp hi with rfl | hi2
      · split <;> omega
      · have := hyle i hi2
        split <;> omega

lemma firstMin_of_ne_nil (l : List Instance) (h : l ≠ []) :
    ∃ v, firstMin l = some v := by
  cases hfm : firstMin l with
  | none => exact absurd (firstMin_eq_none l hfm) h
  | some v => exact ⟨v, rfl⟩

lemma select_eq_firstMin (l : List Instance) (v : Instance)
    (h : firstMin l = some v) :
    select_instance_for_removal l = Except.ok v := by
  have hne : l ≠ [] := by
    intro he
    subst he
    simp [firstMin] at h
  have hh := pySorted_head l
  rw [h] at hh
  unfold select_instance_for_removal
  rw [if_neg (by simpa [List.isEmpty_iff] using hne)]
  cases hs : pySorted l with
  | nil => rw [hs] at hh; simp at hh
  | cons a as =>
    rw [hs] at hh
    simp only [List.head?_cons, Option.some.injEq] at hh
    subst hh
    simp [hs]

lemma delete_container_instance_snd (env : DownEnv) (ocid : String) :
    (delete_container_instance env ocid).2 = 1 := by
  unfold delete_container_instance
  cases h : env.deleteInstance ocid with
  | ok u => rfl
  | error e =>
    cases e with
    | serviceError s m => simp only; split <;> rfl
    | other m => rfl

end ScaleDown

/-! Helper lemmas about the state-wait polling loop. -/

lemma waitIters_timeout (poll : Nat → Except PyErr LifecycleState)
    (target : LifecycleState) :
    ∀ (n j : Nat),
      (∀ k, j ≤ k → k < j + n → ∀ st, poll k = Except.ok st → st ≠ target) →
      ScaleUp.waitIters poll target n j = Except.error (PyErr.other
        ("Timeout waiting for instance to reach " ++ target.str ++ " state")) := by
  intro n
  induction n with
  | zero => intro j _; rfl
  | succ n ih =>
    intro j h
    cases hp : poll j with
    | ok st =>
      have hne : st ≠ target := h j le_rfl (by omega) st hp
      simp only [ScaleUp.waitIters, hp, if_neg hne]
      exact ih (j + 1) (fun k hk1 hk2 st2 hst => h k (by omega) (by omega) st2 hst)
    | error e =>
      simp only [ScaleUp.waitIters, hp]
      exact ih (j + 1) (fun k hk1 hk2 st2 hst => h k (by omega) (by omega) st2 hst)

lemma waitIters_hits (poll : Nat → Except PyErr LifecycleState)
    (target : LifecycleState) :
    ∀ (n j k : Nat), j ≤ k → k < j + n → poll k = Except.ok target →
      (∀ i, j ≤ i → i < k → ∀ st, poll i = Except.ok st → st ≠ target) →
      ScaleUp.waitIters poll target n j = Except.ok true := by
  intro n
  induction n with
  | zero => intro j k h1 h2 _ _; omega
  | succ n ih =>
    intro j k h1 h2 h3 h4
    by_cases hjk : j = k
    · subst hjk
      simp [ScaleUp.waitIters, h3]
    · have hjk2 : j < k := lt_of_le_of_ne h1 hjk
      cases hp : poll j with
      | ok st =>
        have hne : st ≠ target := h4 j le_rfl hjk2 st hp
        simp only [ScaleUp.waitIters, hp, if_neg hne]
        exact ih (j + 1) k (by omega) (by omega) h3
          (fun i hi1 hi2 st2 hst => h4 i (by omega) hi2 st2 hst)
      | error e =>
        simp only [ScaleUp.waitIters, hp]
        exact ih (j + 1) k (by omega) (by omega) h3
          (fun i hi1 hi2 st2 hst => h4 i (by omega) hi2 st2 hst)

/-- When the fleet is strictly above the minimum bound and the bound is
nonnegative, the active list cannot be empty. -/
lemma list_nonempty_of_above_min (env : ScaleDown.DownEnv) (cfg : Config)
    (hmin : 0 ≤ cfg.minInstances)
    (hpol : ¬ ((ScaleDown.list_active_instances env cfg).length : Int) ≤
      cfg.minInstances) :
    ScaleDown.list_active_instances env cfg ≠ [] := by
  intro hnil
  rw [hnil] at hpol
  simp at hpol
  omega

/-! Status lemmas: every dict a handler body returns without raising has
status skipped or success. -/

lemma scale_up_inner_ok_status (env : ScaleUp.UpEnv) (cfg : Config)
    (r : ScaleResult) (eff : Effects)
    (h : ScaleUp.scale_up_inner env cfg = (Except.ok r, eff)) :
    r.status = "skipped" ∨ r.status = "success" := by
  unfold ScaleUp.scale_up_inner at h
  repeat' split at h
  all_goals rw [Prod.mk.injEq] at h
  all_goals obtain ⟨h1, h2⟩ := h
  all_goals first
    | exact Except.noConfusion h1
    | (injection h1 with h3; subst h3; simp)

lemma scale_down_inner_ok_status (env : ScaleDown.DownEnv) (cfg : Config)
    (r : ScaleResult) (eff : Effects)
    (h : ScaleDown.scale_down_inner env cfg = (Except.ok r, eff)) :
    r.status = "skipped" ∨ r.status = "success" := by
  unfold ScaleDown.scale_down_inner at h
  repeat' split at h
  all_goals rw [Prod.mk.injEq] at h
  all_goals obtain ⟨h1, h2⟩ := h
  all_goals first
    | exact Except.noConfusion h1
    | (injection h1 with h3; subst h3; simp)

/-! The claims. -/

/-- C1: fleet-size bounds are enforced before any mutation.  Whenever
`activeCount + creatingCount ≥ maxInstances` the scale-up handler
returns status skipped with the at-maximum message and performs zero
create/backend provider calls; whenever `activeCount ≤ minInstances`
the scale-down handler returns status skipped with the at-minimum
message and performs zero delete/backend provider calls. -/
theorem C1_fleet_bounds_enforced (uenv : ScaleUp.UpEnv)
    (denv : ScaleDown.DownEnv) (cfg : Config) :
    (cfg.maxInstances ≤ ((ScaleUp.count_active_instances uenv cfg +
        ScaleUp.count_creating_instances uenv cfg : Nat) : Int) →
      (ScaleUp.scale_up_handler uenv cfg).1.status = "skipped" ∧
      (ScaleUp.scale_up_handler uenv cfg).1.message =
        "Already at maximum instances (" ++ toString cfg.maxInstances ++ ")" ∧
      (ScaleUp.scale_up_handler uenv cfg).2 = noEffects) ∧
    (((ScaleDown.list_active_instances denv cfg).length : Int) ≤
        cfg.minInstances →
      (ScaleDown.scale_down_handler denv cfg).1.status = "skipped" ∧
      (ScaleDown.scale_down_handler denv cfg).1.message =
        "Already at minimum instances (" ++ toString cfg.minInstances ++ ")" ∧
      (ScaleDown.scale_down_handler denv cfg).2 = noEffects) := by
  constructor
  · intro h
    unfold ScaleUp.scale_up_handler ScaleUp.scale_up_inner
    rw [if_pos h]
    exact ⟨rfl, rfl, rfl⟩
  · intro h
    unfold ScaleDown.scale_down_handler ScaleDown.scale_down_inner
    rw [if_pos h]
    exact ⟨rfl, rfl, rfl⟩

/-- Witness for C1: a fleet at `maxInstances = 0` skips scale-up and an
empty fleet with `minInstances = 1` skips scale-down. -/
theorem C1_fleet_bounds_enforced_witness :
    (ScaleUp.scale_up_handler upEnvW cfgMax0).1.status = "skipped" ∧
    (ScaleUp.scale_up_handler upEnvW cfgMax0).2 = noEffects ∧
    (ScaleDown.scale_down_handler downEnvEmpty cfgW).1.status = "skipped" ∧
    (ScaleDown.scale_down_handler downEnvEmpty cfgW).2 = noEffects := by
  have hu := (C1_fleet_bounds_enforced upEnvW downEnvEmpty cfgMax0).1 (by decide)
  have hd := (C1_fleet_bounds_enforced upEnvW downEnvEmpty cfgW).2 (by decide)
  exact ⟨hu.1, hu.2.2, hd.1, hd.2.2⟩

/-- C2: in-flight exclusion.  Whenever at least one matching instance is
in CREATING state the scale-up handler returns skipped with zero
provider mutations regardless of the active count; the CREATING check
fires only after the maximum-bound check (when the bound also trips,
the at-maximum message wins; otherwise the in-progress message is
returned). -/
theorem C2_inflight_exclusion (env : ScaleUp.UpEnv) (cfg : Config)
    (h : 0 < ScaleUp.count_creating_instances env cfg) :
    (ScaleUp.scale_up_handler env cfg).1.status = "skipped" ∧
    (ScaleUp.scale_up_handler env cfg).2 = noEffects ∧
    (cfg.maxInstances ≤ ((ScaleUp.count_active_instances env cfg +
        ScaleUp.count_creating_instances env cfg : Nat) : Int) →
      (ScaleUp.scale_up_handler env cfg).1.message =
        "Already at maximum instances (" ++ toString cfg.maxInstances ++ ")") ∧
    (¬ cfg.maxInstances ≤ ((ScaleUp.count_active_instances env cfg +
        ScaleUp.count_creating_instances env cfg : Nat) : Int) →
      (ScaleUp.scale_up_handler env cfg).1.message =
        "Scale-up already in progress (" ++
          toString (ScaleUp.count_creating_instances env cfg) ++
          " instances being created)") := by
  by_cases hmax : cfg.maxInstances ≤ ((ScaleUp.count_active_instances env cfg +
      ScaleUp.count_creating_instances env cfg : Nat) : Int)
  · unfold ScaleUp.scale_up_handler ScaleUp.scale_up_inner
    rw [if_pos hmax]
    exact ⟨rfl, rfl, fun _ => rfl, fun hc => absurd hmax hc⟩
  · unfold ScaleUp.scale_up_handler ScaleUp.scale_up_inner
    rw [if_neg hmax, if_pos h]
    exact ⟨rfl, rfl, fun hc => absurd hc hmax, fun _ => rfl⟩

/-- Witness for C2: one CREATING instance in a fleet below the maximum
bound skips scale-up with no provider mutation. -/
theorem C2_inflight_exclusion_witness :
    (ScaleUp.scale_up_handler upEnvCr cfgW).1.status = "skipped" ∧
    (ScaleUp.scale_up_handler upEnvCr cfgW).2 = noEffects := by
  have h := C2_inflight_exclusion upEnvCr cfgW (by decide)
  exact ⟨h.1, h.2.1⟩

/-- C3: cooldown semantics.  The cooldown reference time is the maximum
creation timestamp across all matching instances regardless of state;
elapsed `t < cooldownDuration` makes the check deny (and the handler
skip with zero mutations), `t ≥ cooldownDuration` makes it allow
(exactly the boundary counts as elapsed); with no matching instances
the check passes. -/
theorem C3_cooldown_semantics (env : ScaleUp.UpEnv) (cfg : Config) :
    (∀ items, env.listAll = Except.ok items →
      (matchingInstances cfg.namePfx items = [] →
        ScaleUp.check_cooldown env cfg = true) ∧
      (∀ m, pyMaxBy (matchingInstances cfg.namePfx items) = some m →
        (∀ i ∈ matchingInstances cfg.namePfx items,
          i.timeCreated ≤ m.timeCreated) ∧
        (env.now - m.timeCreated < cfg.cooldownSeconds →
          ScaleUp.check_cooldown env cfg = false) ∧
        (cfg.cooldownSeconds ≤ env.now - m.timeCreated →
          ScaleUp.check_cooldown env cfg = true))) ∧
    (ScaleUp.check_cooldown env cfg = false →
      (ScaleUp.scale_up_handler env cfg).1.status = "skipped" ∧
      (ScaleUp.scale_up_handler env cfg).2 = noEffects) := by
  constructor
  · intro items hl
    constructor
    · intro hm
      unfold ScaleUp.check_cooldown
      simp only [hl, hm, pyMaxBy]
    · intro m hm
      refine ⟨pyMaxBy_le _ m hm, ?_, ?_⟩
      · intro hlt
        unfold ScaleUp.check_cooldown
        simp only [hl, hm, if_pos hlt]
      · intro hge
        unfold ScaleUp.check_cooldown
        simp only [hl, hm]
        rw [if_neg (by omega)]
  · intro hcc
    unfold ScaleUp.scale_up_handler ScaleUp.scale_up_inner
    by_cases h1 : cfg.maxInstances ≤ ((ScaleUp.count_active_instances env cfg +
        ScaleUp.count_creating_instances env cfg : Nat) : Int)
    · rw [if_pos h1]
      exact ⟨rfl, rfl⟩
    · rw [if_neg h1]
      by_cases h2 : 0 < ScaleUp.count_creating_instances env cfg
      · rw [if_pos h2]
        exact ⟨rfl, rfl⟩
      · rw [if_neg h2, if_pos hcc]
        exact ⟨rfl, rfl⟩

/-- Witness for C3: an instance created 50 s before now with a 120 s
cooldown makes the check deny and the handler skip. -/
theorem C3_cooldown_semantics_witness :
    ScaleUp.check_cooldown upEnvCd cfgW = false ∧
    (ScaleUp.scale_up_handler upEnvCd cfgW).1.status = "skipped" := by
  have h := C3_cooldown_semantics upEnvCd cfgW
  have hfalse : ScaleUp.check_cooldown upEnvCd cfgW = false :=
    ((h.1 [inst1] rfl).2 inst1 (by decide)).2.1 (by decide)
  exact ⟨hfalse, (h.2 hfalse).1⟩

/-- C4 counterexample: the scale-down handler does NOT fail open on an
inventory-read error.  With the provider's list call raising, the
fallback empty list makes the handler skip at the minimum-bound check
instead of proceeding. -/
theorem C4_counterexample :
    downEnvErr.listActive = Except.error (PyErr.other "read failed") ∧
    (ScaleDown.scale_down_handler downEnvErr cfgW).1.status = "skipped" ∧
    (ScaleDown.scale_down_handler downEnvErr cfgW).2.deleteCalls = 0 :=
  ⟨rfl, rfl, rfl⟩

/-- C4 (amended): scale-up fails open on read errors — a cooldown-read
error passes the cooldown check and inventory-count errors yield count
0 — but a scale-down inventory-read error yields the empty list, so the
scale-down handler fails CLOSED (skips at the minimum-bound check)
whenever `minInstances ≥ 0`. -/
theorem C4_fail_open_policy (uenv : ScaleUp.UpEnv)
    (denv : ScaleDown.DownEnv) (cfg : Config) :
    (∀ e, uenv.listAll = Except.error e →
      ScaleUp.check_cooldown uenv cfg = true) ∧
    (∀ e, uenv.listActive = Except.error e →
      ScaleUp.count_active_instances uenv cfg = 0) ∧
    (∀ e, uenv.listCreating = Except.error e →
      ScaleUp.count_creating_instances uenv cfg = 0) ∧
    (∀ e, denv.listActive = Except.error e →
      ScaleDown.list_active_instances denv cfg = [] ∧
      (0 ≤ cfg.minInstances →
        (ScaleDown.scale_down_handler denv cfg).1.status = "skipped" ∧
        (ScaleDown.scale_down_handler denv cfg).2 = noEffects)) := by
  refine ⟨?_, ?_, ?_, ?_⟩
  · intro e he
    unfold ScaleUp.check_cooldown
    simp only [he]
  · intro e he
    unfold ScaleUp.count_active_instances
    simp only [he]
  · intro e he
    unfold ScaleUp.count_creating_instances
    simp only [he]
  · intro e he
    have hl : ScaleDown.list_active_instances denv cfg = [] := by
      unfold ScaleDown.list_active_instances
      simp only [he]
    refine ⟨hl, fun hmin => ?_⟩
    unfold ScaleDown.scale_down_handler ScaleDown.scale_down_inner
    rw [if_pos (by rw [hl]; simpa using hmin)]
    exact ⟨rfl, rfl⟩

/-- Witness for C4 (amended) at concrete failing reads. -/
theorem C4_fail_open_policy_witness :
    ScaleUp.check_cooldown upEnvErr cfgW = true ∧
    ScaleUp.count_active_instances upEnvErr cfgW = 0 ∧
    ScaleUp.count_creating_instances upEnvErr cfgW = 0 ∧
    (ScaleDown.scale_down_handler downEnvErr cfgW).1.status = "skipped" := by
  have h := C4_fail_open_policy upEnvErr downEnvErr cfgW
  exact ⟨h.1 _ rfl, h.2.1 _ rfl, h.2.2.1 _ rfl,
    ((h.2.2.2 _ rfl).2 (by decide)).1⟩

/-- C5 counterexample: ties are NOT broken by provider-assigned
identifier ordering.  Two instances with equal creation timestamps are
listed with the lexicographically larger id first; the selected victim
is the first-listed one, not the id-minimal one. -/
theorem C5_counterexample :
    ScaleDown.select_instance_for_removal [instTieZ, instTieA] =
      Except.ok instTieZ ∧
    instTieZ.timeCreated = instTieA.timeCreated ∧
    instTieA.id < instTieZ.id ∧
    instTieZ ≠ instTieA := by
  refine ⟨rfl, rfl, ?_, by decide⟩
  rw [String.lt_iff_toList_lt]
  exact List.Lex.rel (by decide)

/-- C5 (amended): the victim is the matching ACTIVE instance with the
earliest creation timestamp — given `t1 < t2 < t3` the instance with
`t1` is always chosen — and on equal timestamps the tie is broken
deterministically by position in the provider's returned list (Python's
stable sort keeps the first-listed one), not by identifier ordering.
`firstMin` computes exactly the first-listed minimal element. -/
theorem C5_victim_selection (l : List Instance) (v : Instance)
    (h : ScaleDown.firstMin l = some v) :
    ScaleDown.select_instance_for_removal l = Except.ok v ∧
    v ∈ l ∧ ∀ i ∈ l, v.timeCreated ≤ i.timeCreated :=
  ⟨ScaleDown.select_eq_firstMin l v h, ScaleDown.firstMin_mem l v h,
   ScaleDown.firstMin_le l v h⟩

/-- Witness for C5 (amended): with timestamps 200, 100, 300 the
instance created at 100 is selected. -/
theorem C5_victim_selection_witness :
    ScaleDown.select_instance_for_removal [inst2, inst1, inst3] =
      Except.ok inst1 ∧ inst1 ∈ [inst2, inst1, inst3] := by
  have h := C5_victim_selection [inst2, inst1, inst3] inst1 (by decide)
  exact ⟨h.1, h.2.1⟩

/-- C6 counterexample: when the polled state never reaches the target,
`wait_for_instance_state` raises an exception (an `Except.error`) rather
than reporting failure as a returned value. -/
theorem C6_counterexample :
    ScaleUp.wait_for_instance_state pollStuck LifecycleState.ACTIVE 300 5 =
      Except.error
        (PyErr.other "Timeout waiting for instance to reach ACTIVE state") :=
  rfl

/-- C6 (amended): if no poll within the wall-clock budget (ceil of
`max_wait / interval` polls) observes the target state, the wait raises
the timeout exception, which the handler surfaces as a structured error
result; if a poll observes the target state the wait returns success
`true`. -/
theorem C6_await_state (poll : Nat → Except PyErr LifecycleState)
    (target : LifecycleState) (max_wait interval : Nat) :
    ((∀ k, k < (max_wait + interval - 1) / interval → ∀ st,
        poll k = Except.ok st → st ≠ target) →
      ScaleUp.wait_for_instance_state poll target max_wait interval =
        Except.error (PyErr.other
          ("Timeout waiting for instance to reach " ++ target.str ++ " state"))) ∧
    (∀ k, k < (max_wait + interval - 1) / interval →
      poll k = Except.ok target →
      (∀ i, i < k → ∀ st, poll i = Except.ok st → st ≠ target) →
      ScaleUp.wait_for_instance_state poll target max_wait interval =
        Except.ok true) := by
  constructor
  · intro h
    exact waitIters_timeout poll target _ 0
      (fun k hk1 hk2 st hst => h k (by omega) st hst)
  · intro k hk h3 h4
    exact waitIters_hits poll target _ 0 k (Nat.zero_le k) (by omega) h3
      (fun i hi1 hi2 => h4 i hi2)

/-- Witness for C6 (amended): a stuck poll stream times out with the
raised exception; an immediately-ready poll stream returns true. -/
theorem C6_await_state_witness :
    ScaleUp.wait_for_instance_state pollStuck LifecycleState.ACTIVE 300 5 =
      Except.error
        (PyErr.other "Timeout waiting for instance to reach ACTIVE state") ∧
    ScaleUp.wait_for_instance_state pollReady LifecycleState.ACTIVE 300 5 =
      Except.ok true := by
  constructor
  · refine (C6_await_state pollStuck LifecycleState.ACTIVE 300 5).1 ?_
    intro k hk st hst
    have h2 := Except.ok.inj hst
    subst h2
    decide
  · refine (C6_await_state pollReady LifecycleState.ACTIVE 300 5).2 0
      (by decide) rfl ?_
    intro i hi
    exact absurd hi (Nat.not_lt_zero i)

/-- C7: neither handler ever raises to its invoker — every invocation
returns a structured result whose status is success, skipped, or error,
and any exception escaping the handler body is surfaced verbatim (its
`str(e)` text) in the message field with status error. -/
theorem C7_structured_results (uenv : ScaleUp.UpEnv)
    (denv : ScaleDown.DownEnv) (cfg : Config) :
    ((ScaleUp.scale_up_handler uenv cfg).1.status = "success" ∨
     (ScaleUp.scale_up_handler uenv cfg).1.status = "skipped" ∨
     (ScaleUp.scale_up_handler uenv cfg).1.status = "error") ∧
    (∀ e eff, ScaleUp.scale_up_inner uenv cfg = (Except.error e, eff) →
      (ScaleUp.scale_up_handler uenv cfg).1.status = "error" ∧
      (ScaleUp.scale_up_handler uenv cfg).1.message = e.toMessage) ∧
    ((ScaleDown.scale_down_handler denv cfg).1.status = "success" ∨
     (ScaleDown.scale_down_handler denv cfg).1.status = "skipped" ∨
     (ScaleDown.scale_down_handler denv cfg).1.status = "error") ∧
    (∀ e eff, ScaleDown.scale_down_inner denv cfg = (Except.error e, eff) →
      (ScaleDown.scale_down_handler denv cfg).1.status = "error" ∧
      (ScaleDown.scale_down_handler denv cfg).1.message = e.toMessage) := by
  refine ⟨?_, ?_, ?_, ?_⟩
  · unfold ScaleUp.scale_up_handler
    cases hu : ScaleUp.scale_up_inner uenv cfg with
    | mk res eff =>
      cases res with
      | ok r =>
        rcases scale_up_inner_ok_status uenv cfg r eff hu with h | h
        · exact Or.inr (Or.inl h)
        · exact Or.inl h
      | error e => exact Or.inr (Or.inr rfl)
  · intro e eff he
    unfold ScaleUp.scale_up_handler
    rw [he]
    exact ⟨rfl, rfl⟩
  · unfold ScaleDown.scale_down_handler
    cases hd : ScaleDown.scale_down_inner denv cfg with
    | mk res eff =>
      cases res with
      | ok r =>
        rcases scale_down_inner_ok_status denv cfg r eff hd with h | h
        · exact Or.inr (Or.inl h)
        · exact Or.inl h
      | error e => exact Or.inr (Or.inr rfl)
  · intro e eff he
    unfold ScaleDown.scale_down_handler
    rw [he]
    exact ⟨rfl, rfl⟩

/-- Witness for C7: a raising provisioning request and a raising
deletion request both surface their exception text with status error. -/
theorem C7_structured_results_witness :
    (ScaleUp.scale_up_handler upEnvFail cfgW).1.status = "error" ∧
    (ScaleUp.scale_up_handler upEnvFail cfgW).1.message = "boom" ∧
    (ScaleDown.scale_down_handler downEnvFail cfgW).1.status = "error" ∧
    (ScaleDown.scale_down_handler downEnvFail cfgW).1.message = "boom" := by
  have h := C7_structured_results upEnvFail downEnvFail cfgW
  have hu := h.2.1 (PyErr.other "boom") { createCalls := 1 } rfl
  have hd := h.2.2.2 (PyErr.other "boom")
    { deleteCalls := 1, backendCalls := 1 } rfl
  exact ⟨hu.1, hu.2, hd.1, hd.2⟩

/-- C8: removal operations are idempotent with respect to absence — a
404 ServiceError from removing a backend or deleting an instance is
swallowed as success, while any other ServiceError from these
operations is re-raised. -/
theorem C8_idempotent_removal (env : ScaleDown.DownEnv) (cfg : Config)
    (ip ocid : String) :
    (∀ m, env.deleteBackend (ip ++ ":" ++ toString cfg.appPort) =
        Except.error (PyErr.serviceError 404 m) →
      (ScaleDown.remove_backend_from_lb env cfg ip).1 = Except.ok ()) ∧
    (∀ m, env.deleteInstance ocid = Except.error (PyErr.serviceError 404 m) →
      (ScaleDown.delete_container_instance env ocid).1 = Except.ok ()) ∧
    (∀ s m, s ≠ 404 →
      env.deleteBackend (ip ++ ":" ++ toString cfg.appPort) =
        Except.error (PyErr.serviceError s m) →
      (ScaleDown.remove_backend_from_lb env cfg ip).1 =
        Except.error (PyErr.serviceError s m)) ∧
    (∀ s m, s ≠ 404 →
      env.deleteInstance ocid = Except.error (PyErr.serviceError s m) →
      (ScaleDown.delete_container_instance env ocid).1 =
        Except.error (PyErr.serviceError s m)) := by
  refine ⟨?_, ?_, ?_, ?_⟩
  · intro m h
    unfold ScaleDown.remove_backend_from_lb
    simp [h]
  · intro m h
    unfold ScaleDown.delete_container_instance
    simp [h]
  · intro s m hs h
    unfold ScaleDown.remove_backend_from_lb
    simp only [h, if_neg hs]
  · intro s m hs h
    unfold ScaleDown.delete_container_instance
    simp only [h, if_neg hs]

/-- Witness for C8 at concrete 404 and 500 responses. -/
theorem C8_idempotent_removal_witness :
    (ScaleDown.remove_backend_from_lb downEnv404 cfgW "10.0.0.1").1 =
      Except.ok () ∧
    (ScaleDown.delete_container_instance downEnv404 "a").1 = Except.ok () ∧
    (ScaleDown.remove_backend_from_lb downEnv500 cfgW "10.0.0.1").1 =
      Except.error (PyErr.serviceError 500 "server error") ∧
    (ScaleDown.delete_container_instance downEnv500 "a").1 =
      Except.error (PyErr.serviceError 500 "server error") := by
  have h4 := C8_idempotent_removal downEnv404 cfgW "10.0.0.1" "a"
  have h5 := C8_idempotent_removal downEnv500 cfgW "10.0.0.1" "a"
  exact ⟨h4.1 "not found" rfl, h4.2.1 "not found" rfl,
    h5.2.2.1 500 "server error" (by decide) rfl,
    h5.2.2.2 500 "server error" (by decide) rfl⟩

/-- C9: scale-down is best-effort before deletion.  When address
resolution raises, no backend mutation is attempted, the delete call is
still made exactly once, and — when the deletion request itself
succeeds — the result is status success with the reported private
address "unknown". -/
theorem C9_best_effort_scale_down (env : ScaleDown.DownEnv) (cfg : Config)
    (e : PyErr)
    (hmin : 0 ≤ cfg.minInstances)
    (hpol : ¬ ((ScaleDown.list_active_instances env cfg).length : Int) ≤
      cfg.minInstances)
    (hres : env.resolveIp = Except.error e) :
    (ScaleDown.scale_down_handler env cfg).2.backendCalls = 0 ∧
    (ScaleDown.scale_down_handler env cfg).2.deleteCalls = 1 ∧
    (∀ v, ScaleDown.select_instance_for_removal
        (ScaleDown.list_active_instances env cfg) = Except.ok v →
      (ScaleDown.delete_container_instance env v.id).1 = Except.ok () →
      (ScaleDown.scale_down_handler env cfg).1.status = "success" ∧
      (ScaleDown.scale_down_handler env cfg).1.privateIp = some "unknown") := by
  have hne := list_nonempty_of_above_min env cfg hmin hpol
  obtain ⟨v0, hv0⟩ := ScaleDown.firstMin_of_ne_nil _ hne
  have hsel := ScaleDown.select_eq_firstMin _ v0 hv0
  have hra : ScaleDown.resolve_and_remove env cfg = ("unknown", 0) := by
    unfold ScaleDown.resolve_and_remove
    simp only [hres]
  unfold ScaleDown.scale_down_handler ScaleDown.scale_down_inner
  rw [if_neg hpol]
  simp only [hsel]
  cases hd : ScaleDown.delete_container_instance env v0.id with
  | mk dres d =>
    have hd1 : d = 1 := by
      have h2 := ScaleDown.delete_container_instance_snd env v0.id
      rw [hd] at h2
      exact h2
    subst hd1
    cases dres with
    | ok u =>
      refine ⟨by simp [hra], by simp, ?_⟩
      intro v hvsel hvdel
      have hveq : v = v0 := (Except.ok.inj hvsel.symm)
      subst hveq
      exact ⟨rfl, by simp [hra]⟩
    | error e2 =>
      refine ⟨by simp [hra], by simp, ?_⟩
      intro v hvsel hvdel
      have hveq : v = v0 := (Except.ok.inj hvsel.symm)
      subst hveq
      rw [hd] at hvdel
      exact absurd hvdel (by simp)

/-- Witness for C9: a fleet of two with failing address resolution
deletes the oldest instance and reports success with address unknown. -/
theorem C9_best_effort_scale_down_witness :
    (ScaleDown.scale_down_handler downEnvNoIp cfgW).2.backendCalls = 0 ∧
    (ScaleDown.scale_down_handler downEnvNoIp cfgW).2.deleteCalls = 1 ∧
    (ScaleDown.scale_down_handler downEnvNoIp cfgW).1.status = "success" ∧
    (ScaleDown.scale_down_handler downEnvNoIp cfgW).1.privateIp =
      some "unknown" := by
  have h := C9_best_effort_scale_down downEnvNoIp cfgW
    (PyErr.other "Failed to retrieve private IP address")
    (by decide) (by decide) rfl
  have h3 := h.2.2 inst1 rfl rfl
  exact ⟨h.1, h.2.1, h3.1, h3.2⟩

/-- C10 (implicit): whenever `minInstances ≥ 0`, the scale-down handler
reaches `select_instance_for_removal` only with a non-empty list, so
the no-instances exception branch is unreachable from the handler under
that precondition. -/
theorem C10_select_precondition (env : ScaleDown.DownEnv) (cfg : Config)
    (hmin : 0 ≤ cfg.minInstances)
    (hpol : ¬ ((ScaleDown.list_active_instances env cfg).length : Int) ≤
      cfg.minInstances) :
    ScaleDown.list_active_instances env cfg ≠ [] ∧
    ∃ v, ScaleDown.select_instance_for_removal
      (ScaleDown.list_active_instances env cfg) = Except.ok v := by
  have hne := list_nonempty_of_above_min env cfg hmin hpol
  obtain ⟨v0, hv0⟩ := ScaleDown.firstMin_of_ne_nil _ hne
  exact ⟨hne, v0, ScaleDown.select_eq_firstMin _ v0 hv0⟩

/-- Witness for C10 at a concrete two-instance fleet. -/
theorem C10_select_precondition_witness :
    ScaleDown.list_active_instances downEnvW cfgW ≠ [] ∧
    ∃ v, ScaleDown.select_instance_for_removal
      (ScaleDown.list_active_instances downEnvW cfgW) = Except.ok v :=
  C10_select_precondition downEnvW cfgW (by decide) (by decide)

end CIAutoscaling
